import Mathlib

/-
A shallow embedding of the More-Thuente line search from
src/solver/linesearch/morethuente.rs.

Modelling conventions:
* `f64` values are modelled as rationals (`ℚ`).  All arithmetic performed by
  the verified claims is exact rational arithmetic; the floating-point literal
  `0.66` is read at face value as `66/100`, `0.5` as `1/2`, and
  `std::f64::EPSILON` as `2 ^ (-52)`.
* The square root used inside the interpolation formulas of `cstep` is
  abstracted as an explicit function parameter `sq : ℚ → ℚ`; it only ever
  influences the interpolated position, never the bookkeeping fields the
  claims below are about, and the general theorems are proved for every `sq`.
* Division in `ℚ` yields `0` on a zero denominator; the concrete inputs used
  below never divide by zero.
* The source stores `f64::NAN` placeholders into `stp.fx`/`stp.gx` during
  `init`; no verified statement reads those placeholders, and the embedding
  stores `0` there (see `init`).
* The parameter vector type `T` with its `ArgminDot` capability is modelled
  as `List ℚ` with the usual dot product (`dotQ`).
-/

namespace MoreThuente

/-- The `Step` struct: a (position, value, slope) triple. -/
structure Step where
  x : ℚ
  fx : ℚ
  gx : ℚ
  deriving DecidableEq

/-- The mutable fields of `MoreThuenteLineSearch` that participate in
`next_iter`, after `init` has run. -/
structure MTState where
  finit : ℚ
  dginit : ℚ
  dgtest : ℚ
  ftol : ℚ
  gtol : ℚ
  xtrapf : ℚ
  width : ℚ
  width1 : ℚ
  xtol : ℚ
  alpha : ℚ
  stpmin : ℚ
  stpmax : ℚ
  stp : Step
  stx : Step
  sty : Step
  f : ℚ
  brackt : Bool
  stage1 : Bool
  infoc : ℕ
  deriving DecidableEq

/-- Result of `cstep`, in the order of the returned Rust tuple
`(stx, sty, stp, brackt, stpmin, stpmax, info)`. -/
structure CstepOut where
  stx : Step
  sty : Step
  stp : Step
  brackt : Bool
  stpmin : ℚ
  stpmax : ℚ
  info : ℕ
  deriving DecidableEq

/-- The scaling factor used before forming `gamma` in every interpolation
case of `cstep`: the source builds `vec![theta, ga, gb]` and takes
`max_by(partial_cmp)`, i.e. the maximum of the three signed values. -/
def cstepScale (theta ga gb : ℚ) : ℚ :=
  max theta (max ga gb)

/-- Faithful translation of the free function `cstep` (the step updater).
`sq` stands for `f64::sqrt`. -/
def cstep (sq : ℚ → ℚ) (stx sty stp : Step) (brackt : Bool)
    (stpmin stpmax : ℚ) : CstepOut :=
  if (brackt ∧ (stp.x ≤ min stx.x sty.x ∨ stp.x ≥ max stx.x sty.x))
      ∨ stx.gx * (stp.x - stx.x) ≥ 0 ∨ stpmax < stpmin then
    ⟨stx, sty, stp, brackt, stpmin, stpmax, 0⟩
  else
    let sgnd := stp.gx * (stx.gx / |stx.gx|)
    -- each case yields (stpf, brackt, bound, info)
    let c : ℚ × Bool × Bool × ℕ :=
      if stp.fx > stx.fx then
        -- First case: a higher function value.
        let theta := 3 * (stx.fx - stp.fx) / (stp.x - stx.x) + stx.gx + stp.gx
        let sc := cstepScale theta stx.gx stp.gx
        let gamma0 := sc * sq ((theta / sc) ^ 2 - (stx.gx / sc) * (stp.gx / sc))
        let gamma := if stp.x < stx.x then -gamma0 else gamma0
        let p := (gamma - stx.gx) + theta
        let q := ((gamma - stx.gx) + gamma) + stp.gx
        let r := p / q
        let stpc := stx.x + r * (stp.x - stx.x)
        let stpq := stx.x
          + ((stx.gx / ((stx.fx - stp.fx) / (stp.x - stx.x) + stx.gx)) / 2)
            * (stp.x - stx.x)
        let stpf := if |stpc - stx.x| < |stpq - stx.x| then stpc
          else stpc + (stpq - stpc) / 2
        (stpf, true, true, 1)
      else if sgnd < 0 then
        -- Second case: lower value, derivatives of opposite sign.
        let theta := 3 * (stx.fx - stp.fx) / (stp.x - stx.x) + stx.gx + stp.gx
        let sc := cstepScale theta stx.gx stp.gx
        let gamma0 := sc * sq ((theta / sc) ^ 2 - (stx.gx / sc) * (stp.gx / sc))
        let gamma := if stp.x > stx.x then -gamma0 else gamma0
        let p := (gamma - stp.gx) + theta
        let q := ((gamma - stp.gx) + gamma) + stx.gx
        let r := p / q
        let stpc := stp.x + r * (stx.x - stp.x)
        let stpq := stp.x + (stp.gx / (stp.gx - stx.gx)) * (stx.x - stp.x)
        let stpf := if |stpc - stp.x| > |stpq - stp.x| then stpc else stpq
        (stpf, true, false, 2)
      else if |stp.gx| < |stx.gx| then
        -- Third case: lower value, same sign, derivative magnitude decreases.
        let theta := 3 * (stx.fx - stp.fx) / (stp.x - stx.x) + stx.gx + stp.gx
        let sc := cstepScale theta stx.gx stp.gx
        let gamma0 := sc * sq (max 0 ((theta / sc) ^ 2 - (stx.gx / sc) * (stp.gx / sc)))
        let gamma := if stp.x > stx.x then -gamma0 else gamma0
        let p := (gamma - stp.gx) + theta
        let q := (gamma + (stx.gx - stp.gx)) + gamma
        let r := p / q
        let stpc := if r < 0 ∧ gamma ≠ 0 then stp.x + r * (stx.x - stp.x)
          else if stp.x > stx.x then stpmax else stpmin
        let stpq := stp.x + (stp.gx / (stp.gx - stx.gx)) * (stx.x - stp.x)
        let stpf := if brackt then
            (if |stp.x - stpc| < |stp.x - stpq| then stpc else stpq)
          else
            (if |stp.x - stpc| > |stp.x - stpq| then stpc else stpq)
        (stpf, brackt, true, 3)
      else
        -- Fourth case: lower value, same sign, magnitude does not decrease.
        let stpf := if brackt then
            let theta := 3 * (stp.fx - sty.fx) / (sty.x - stp.x) + sty.gx + stp.gx
            let sc := cstepScale theta sty.gx stp.gx
            let gamma0 := sc * sq ((theta / sc) ^ 2 - (sty.gx / sc) * (stp.gx / sc))
            let gamma := if stp.x > sty.x then -gamma0 else gamma0
            let p := (gamma - stp.gx) + theta
            let q := ((gamma - stp.gx) + gamma) + sty.gx
            let r := p / q
            stp.x + r * (sty.x - stp.x)
          else if stp.x > stx.x then stpmax
          else stpmin
        (stpf, brackt, false, 4)
    let stpf := c.1
    let brackt2 := c.2.1
    let bound := c.2.2.1
    let info := c.2.2.2
    -- interval of uncertainty update (independent of the case analysis)
    let stx_o := if stp.fx > stx.fx then stx else stp
    let sty_o := if stp.fx > stx.fx then stp else if sgnd < 0 then stx else sty
    -- compute the new step and safeguard it
    let stpf2 := max stpmin (min stpmax stpf)
    let stpx := if brackt2 ∧ bound then
        (if sty_o.x > stx_o.x then min stpf2 (stx_o.x + (66/100) * (sty_o.x - stx_o.x))
         else max stpf2 (stx_o.x + (66/100) * (sty_o.x - stx_o.x)))
      else stpf2
    ⟨stx_o, sty_o, ⟨stpx, stp.fx, stp.gx⟩, brackt2, stpmin, stpmax, info⟩

/-- `std::f64::EPSILON` read as an exact rational. -/
def f64Eps : ℚ := 1 / 2 ^ 52

/-- The pair `(stmin, stmax)` computed at the top of `next_iter`, from the
state as it stands on entry (before the clamp). -/
def stBounds (s : MTState) : ℚ × ℚ :=
  if s.brackt then (min s.stx.x s.sty.x, max s.stx.x s.sty.x)
  else (s.stx.x, s.stp.x + s.xtrapf * (s.stp.x - s.stx.x))

/-- The trial position after the two clamp lines
`stp.x = stp.x.max(stpmin); stp.x = stp.x.min(stpmax)`. -/
def clampedPos (s : MTState) : ℚ :=
  min (max s.stp.x s.stpmin) s.stpmax

/-- The condition under which `next_iter` snaps the trial to the lowest point
obtained so far (`self.stp.x = self.stx.x`). -/
abbrev snapCond (s : MTState) : Prop :=
  (s.brackt ∧ (clampedPos s ≤ (stBounds s).1 ∨ clampedPos s ≥ (stBounds s).2))
    ∨ (s.brackt ∧ (stBounds s).2 - (stBounds s).1 ≤ s.xtol * (stBounds s).2)
    ∨ s.infoc = 0

/-- The trial position at which the objective is evaluated during a step
(after the clamp and the possible snap to `stx.x`). -/
def evalPos (s : MTState) : ℚ :=
  if snapCond s then s.stx.x else clampedPos s

/-- `ftest1 = finit + stp.x * dgtest`, with `stp.x` the evaluated position. -/
def ftest1v (s : MTState) : ℚ :=
  s.finit + evalPos s * s.dgtest

/-- Breakdown condition checked at line 452 of the source
(evaluated with the post-snap trial position). -/
abbrev cond6 (s : MTState) : Prop :=
  (s.brackt ∧ (evalPos s ≤ (stBounds s).1 ∨ evalPos s ≥ (stBounds s).2))
    ∨ s.infoc = 0

/-- Boundary condition for code 5 (trial at `stpmax`, Armijo holds,
slope small enough). -/
abbrev cond5 (s : MTState) (f dg : ℚ) : Prop :=
  |evalPos s - s.stpmax| < f64Eps ∧ f ≤ ftest1v s ∧ dg ≤ s.dgtest

/-- Boundary condition for code 4 (trial at `stpmin`, Armijo fails or slope
too large). -/
abbrev cond4 (s : MTState) (f dg : ℚ) : Prop :=
  |evalPos s - s.stpmin| < f64Eps ∧ (f > ftest1v s ∨ dg ≥ s.dgtest)

/-- Interval-too-small condition for code 2. -/
abbrev cond2 (s : MTState) : Prop :=
  s.brackt ∧ (stBounds s).2 - (stBounds s).1 ≤ s.xtol * (stBounds s).2

/-- Strong-Wolfe success condition for code 1. -/
abbrev cond1 (s : MTState) (f dg : ℚ) : Prop :=
  f ≤ ftest1v s ∧ |dg| ≤ s.gtol * (-s.dginit)

/-- The sequence of `info` assignments of lines 452-475: each matching
condition overwrites the previous assignment, exactly as in the source. -/
def infoCascade (s : MTState) (f dg : ℚ) : ℕ :=
  let i0 : ℕ := 0
  let i1 := if cond6 s then 6 else i0
  let i2 := if cond5 s f dg then 5 else i1
  let i3 := if cond4 s f dg then 4 else i2
  let i4 := if cond2 s then 2 else i3
  if cond1 s f dg then 1 else i4

/-- The Stage-1 exit test of line 483:
`stage1 && f <= ftest1 && dg >= ftol.min(gtol) * dginit`. -/
abbrev stageTransition (s : MTState) (f dg : ℚ) : Prop :=
  s.stage1 ∧ f ≤ ftest1v s ∧ dg ≥ min s.ftol s.gtol * s.dginit

/-- The surrogate-branch condition of line 487, as the source writes it:
`stage1 && f <= stp.fx && f > ftest1`, where `stpfx` is the *stored previous
trial value* `self.stp.fx`. -/
abbrev surrogateCond (stage1 : Bool) (stpfx f ft : ℚ) : Prop :=
  stage1 ∧ f ≤ stpfx ∧ f > ft

/-- Modelled from the spec: claim C3's version of the surrogate-branch
condition, which compares the fresh value against the stored *low* point's
value `low.value` (`self.stx.fx`) instead of `self.stp.fx`.  This definition
follows the claim's words and exists only to be compared with
`surrogateCond`, which is translated from the source. -/
abbrev surrogateCondClaim (stage1 : Bool) (stxfx f ft : ℚ) : Prop :=
  stage1 ∧ f ≤ stxfx ∧ f > ft

/-- What one call of `next_iter` produces: the updated solver state, the
local `info` code (`0` means a non-terminal step), and the position/value
pair carried by the returned `ArgminIterationData`. -/
structure IterResult where
  state : MTState
  info : ℕ
  outX : ℚ
  outF : ℚ
  deriving DecidableEq

/-- Faithful translation of `next_iter`.  The objective evaluation at the
trial position is an external call; its results are the parameters `f`
(cost) and `dg` (directional derivative).  `sq` stands for `f64::sqrt`. -/
def nextIter (sq : ℚ → ℚ) (s : MTState) (f dg : ℚ) : IterResult :=
  let stmin := (stBounds s).1
  let stmax := (stBounds s).2
  let x3 := evalPos s
  let ft := ftest1v s
  let info := infoCascade s f dg
  if info ≠ 0 then
    -- terminal: return current point and cost (state mutated so far:
    -- the clamped/snapped trial position and the fresh cost)
    ⟨{ s with stp := ⟨x3, s.stp.fx, s.stp.gx⟩, f := f }, info, x3, f⟩
  else
    let stage1' := if stageTransition s f dg then false else s.stage1
    -- branch outcome: (stx, sty, stp, f, brackt, infoc)
    let br : Step × Step × Step × ℚ × Bool × ℕ :=
      if surrogateCond stage1' s.stp.fx f ft then
        -- define the modified function and derivative values
        let fm := f - x3 * s.dgtest
        let fxm := s.stx.fx - s.stx.x * s.dgtest
        let fym := s.sty.fx - s.sty.x * s.dgtest
        let dgm := dg - s.dgtest
        let dgxm := s.stx.gx - s.dgtest
        let dgym := s.sty.gx - s.dgtest
        let o := cstep sq ⟨s.stx.x, fxm, dgxm⟩ ⟨s.sty.x, fym, dgym⟩
          ⟨x3, fm, dgm⟩ s.brackt stmin stmax
        -- lines 504-513: positions copied, then the shift is (incorrectly)
        -- undone by adding to the *old* stored fields; finally the whole
        -- shifted trial is stored into `stp`
        (⟨o.stx.x, s.stx.fx + o.stx.x * s.dgtest, s.stx.gx + s.dgtest⟩,
         ⟨o.sty.x, s.sty.fx + o.sty.x * s.dgtest, s.sty.gx + s.dgtest⟩,
         o.stp, f, o.brackt, o.info)
      else
        let o := cstep sq s.stx s.sty ⟨x3, f, dg⟩ s.brackt stmin stmax
        (o.stx, o.sty, o.stp, o.stp.fx, o.brackt, o.info)
    let stx' := br.1
    let sty' := br.2.1
    let stp' := br.2.2.1
    let f' := br.2.2.2.1
    let brackt' := br.2.2.2.2.1
    let infoc' := br.2.2.2.2.2
    -- force a midpoint step when the bracket did not shrink enough
    let stp'' := if brackt' ∧ |sty'.x - stx'.x| ≥ (66/100) * s.width1 then
        (⟨stx'.x + (1/2) * (sty'.x - stx'.x), stp'.fx, stp'.gx⟩ : Step)
      else stp'
    let width' := if brackt' then |sty'.x - stx'.x| else s.width
    let width1' := if brackt' then s.width else s.width1
    ⟨{ s with stp := stp'', stx := stx', sty := sty', f := f',
              brackt := brackt', stage1 := stage1', infoc := infoc',
              width := width', width1 := width1' },
     info, stp''.x, stp''.fx⟩

/-- Dot product on the parameter vector type, modelled as `List ℚ`. -/
def dotQ (a b : List ℚ) : ℚ :=
  (List.zipWith (fun u v => u * v) a b).sum

/-- The builder-side fields read by `init` (the `Option` fields checked by
`check_param!`) together with the constructor-initialized configuration
fields that `init` copies into the running state. -/
structure MTBuilder where
  init_param_b : Option (List ℚ)
  finit_b : Option ℚ
  init_grad_b : Option (List ℚ)
  search_direction_b : Option (List ℚ)
  ftol : ℚ
  gtol : ℚ
  xtrapf : ℚ
  xtol : ℚ
  alpha : ℚ
  stpmin : ℚ
  stpmax : ℚ
  infoc : ℕ
  deriving DecidableEq

/-- Errors surfaced by `init`. -/
inductive MTError where
  | notInitialized
  | conditionViolated
  deriving DecidableEq

/-- Faithful translation of `init`.  The objective is passed as `_obj` and,
exactly as in the source, never called: `init` only checks the builder
fields and computes a dot product.  The source stores `f64::NAN`
placeholders into `stp.fx`/`stp.gx`; the embedding stores `0` (no verified
statement reads them). -/
def init (_obj : List ℚ → ℚ) (b : MTBuilder) : Except MTError MTState :=
  match b.init_param_b with
  | none => Except.error MTError.notInitialized
  | some _ip =>
  match b.finit_b with
  | none => Except.error MTError.notInitialized
  | some fv =>
  match b.init_grad_b with
  | none => Except.error MTError.notInitialized
  | some ig =>
  match b.search_direction_b with
  | none => Except.error MTError.notInitialized
  | some sd =>
    let dginit := dotQ ig sd
    if dginit ≥ 0 then Except.error MTError.conditionViolated
    else Except.ok
      { finit := fv
        dginit := dginit
        dgtest := b.ftol * dginit
        ftol := b.ftol
        gtol := b.gtol
        xtrapf := b.xtrapf
        width := b.stpmax - b.stpmin
        width1 := 2 * (b.stpmax - b.stpmin)
        xtol := b.xtol
        alpha := b.alpha
        stpmin := b.stpmin
        stpmax := b.stpmax
        stp := ⟨b.alpha, 0, 0⟩
        stx := ⟨0, fv, dginit⟩
        sty := ⟨0, fv, dginit⟩
        f := fv
        brackt := false
        stage1 := true
        infoc := b.infoc }

end MoreThuente

namespace MoreThuente

/-- A concrete stand-in for `f64::sqrt`, used to instantiate the abstract
square-root parameter in closed evaluations (none of the evaluated claim
fields depend on its values). -/
def sq0 : ℚ → ℚ := fun _ => 0

/-- A concrete stand-in objective, used to instantiate the (unused)
objective parameter of `init` in closed statements. -/
def obj0 : List ℚ → ℚ := fun _ => 0

/-- Shared elimination lemma: the fields `init` writes on success. -/
theorem initOk_fields (obj : List ℚ → ℚ) (b : MTBuilder) (st : MTState)
    (h : init obj b = Except.ok st) :
    st.stage1 = true ∧ st.brackt = false
      ∧ st.width = b.stpmax - b.stpmin
      ∧ st.width1 = 2 * (b.stpmax - b.stpmin) := by
  simp only [init] at h
  split at h
  · exact Except.noConfusion h
  · split at h
    · exact Except.noConfusion h
    · split at h
      · exact Except.noConfusion h
      · split at h
        · exact Except.noConfusion h
        · split at h
          · exact Except.noConfusion h
          · rw [Except.ok.injEq] at h
            subst h
            exact ⟨rfl, rfl, rfl, rfl⟩

/-- C5: on a degenerate input - `bracketed` with the trial not strictly
inside the current bracket, or a non-negative `low.slope * (trial - low)`
product, or `stmax < stmin` - `cstep` returns all six inputs unchanged with
case code `0`. -/
theorem cstep_reject (sq : ℚ → ℚ) (stx sty stp : Step) (brackt : Bool)
    (stpmin stpmax : ℚ)
    (h : (brackt ∧ (stp.x ≤ min stx.x sty.x ∨ stp.x ≥ max stx.x sty.x))
        ∨ stx.gx * (stp.x - stx.x) ≥ 0 ∨ stpmax < stpmin) :
    cstep sq stx sty stp brackt stpmin stpmax
      = ⟨stx, sty, stp, brackt, stpmin, stpmax, 0⟩ := by
  unfold cstep
  rw [if_pos h]

/-- Witness for C5 at a concrete degenerate input, where
`low.slope * (trial.position - low.position) = 1 ≥ 0`. -/
theorem cstep_reject_witness :
    cstep sq0 ⟨0, 0, 1⟩ ⟨0, 0, 1⟩ ⟨1, 0, 0⟩ false 0 5
      = ⟨⟨0, 0, 1⟩, ⟨0, 0, 1⟩, ⟨1, 0, 0⟩, false, 0, 5, 0⟩ :=
  cstep_reject sq0 ⟨0, 0, 1⟩ ⟨0, 0, 1⟩ ⟨1, 0, 0⟩ false 0 5
    (Or.inr (Or.inl (by norm_num)))

/-- C8: `cstep` returns the `stpmin` and `stpmax` it was given unchanged
(positions five and six of the result tuple), on the rejection path and
after any of cases 1-4. -/
theorem cstep_preserves_bounds (sq : ℚ → ℚ) (stx sty stp : Step)
    (brackt : Bool) (stpmin stpmax : ℚ) :
    (cstep sq stx sty stp brackt stpmin stpmax).stpmin = stpmin
      ∧ (cstep sq stx sty stp brackt stpmin stpmax).stpmax = stpmax := by
  constructor <;> (unfold cstep; split) <;> rfl

/-- C6: the scaling factor used before forming `gamma` is the *signed*
maximum of `theta`, `g_a`, `g_b`, not the maximum of their absolute values.
At the concrete input below, `cstep` enters case 1 with
`theta = 3*(0-1)/(1-0) + (-3) + (-1) = -7`, and the scale the source
computes is `max (-7) (-3) (-1) = -1`, while the claimed scale
`max |theta| |g_a| |g_b|` would be `7`. -/
theorem cstep_scale_signed_cex :
    (cstep sq0 ⟨0, 0, -3⟩ ⟨0, 0, -3⟩ ⟨1, 1, -1⟩ false 0 5).info = 1
      ∧ (3 * ((0 : ℚ) - 1) / (1 - 0) + -3 + -1) = -7
      ∧ cstepScale (-7) (-3) (-1) = -1
      ∧ max |(-7 : ℚ)| (max |(-3 : ℚ)| |(-1 : ℚ)|) = 7
      ∧ cstepScale (-7) (-3) (-1)
          ≠ max |(-7 : ℚ)| (max |(-3 : ℚ)| |(-1 : ℚ)|) := by
  refine ⟨?_, by norm_num, ?_, ?_, ?_⟩ <;>
    norm_num [cstep, cstepScale, sq0, max_def, min_def]

end MoreThuente

namespace MoreThuente

/-- C7: with all builder fields present, `init` fails with the
descent-direction precondition error exactly when
`dginit = dot(initial_gradient, direction) ≥ 0`; for `dginit < 0` it
succeeds.  `init` never calls the objective - exactly as in the source it
only checks builder fields and computes a dot product - which the last
conjunct states as invariance in the objective argument. -/
theorem descent_precondition (obj : List ℚ → ℚ) (b : MTBuilder)
    (ig sd : List ℚ)
    (hp : b.init_param_b.isSome = true) (hf : b.finit_b.isSome = true)
    (hg : b.init_grad_b = some ig) (hd : b.search_direction_b = some sd) :
    (init obj b = Except.error MTError.conditionViolated ↔ 0 ≤ dotQ ig sd)
      ∧ (dotQ ig sd < 0 →
          ∃ st, init obj b = Except.ok st ∧ st.dginit = dotQ ig sd)
      ∧ ∀ o₁ o₂ : List ℚ → ℚ, init o₁ b = init o₂ b := by
  obtain ⟨ip, hip⟩ := Option.isSome_iff_exists.mp hp
  obtain ⟨fv, hfv⟩ := Option.isSome_iff_exists.mp hf
  refine ⟨?_, ?_, fun o₁ o₂ => rfl⟩
  · simp only [init, hip, hfv, hg, hd]
    split
    · next hge => simpa using hge
    · next hlt => simpa using hlt
  · intro hneg
    simp only [init, hip, hfv, hg, hd]
    rw [if_neg (not_le.mpr hneg)]
    exact ⟨_, rfl, rfl⟩

/-- Witness for C7: a builder whose gradient/direction dot product is
`dotQ [1] [2] = 2 ≥ 0`, on which `init` reports the precondition error. -/
def bBad : MTBuilder :=
  { init_param_b := some [1], finit_b := some 1, init_grad_b := some [1],
    search_direction_b := some [2], ftol := 1/4, gtol := 1/2, xtrapf := 4,
    xtol := 0, alpha := 1, stpmin := 0, stpmax := 1, infoc := 1 }

/-- Witness for C7. -/
theorem descent_precondition_witness :
    init obj0 bBad = Except.error MTError.conditionViolated :=
  (descent_precondition obj0 bBad [1] [2] rfl rfl rfl rfl).1.mpr
    (by norm_num [dotQ])

/-- C9: after a successful `init`, `width = stpmax - stpmin` and
`width1 = 2 * width` (twice the width, not equal to it). -/
theorem init_width_bookkeeping (obj : List ℚ → ℚ) (b : MTBuilder)
    (st : MTState) (h : init obj b = Except.ok st) :
    st.width = b.stpmax - b.stpmin ∧ st.width1 = 2 * st.width := by
  obtain ⟨-, -, hw, hw1⟩ := initOk_fields obj b st h
  exact ⟨hw, by rw [hw1, hw]⟩

/-- A builder on which `init` succeeds (`dotQ [1] [-2] = -2 < 0`). -/
def bOk : MTBuilder :=
  { init_param_b := some [1], finit_b := some 1, init_grad_b := some [1],
    search_direction_b := some [-2], ftol := 1/4, gtol := 1/2, xtrapf := 4,
    xtol := 0, alpha := 1, stpmin := 0, stpmax := 1, infoc := 1 }

/-- The state `init obj0 bOk` produces. -/
def stOk : MTState :=
  { finit := 1, dginit := -2, dgtest := -1/2, ftol := 1/4, gtol := 1/2,
    xtrapf := 4, width := 1, width1 := 2, xtol := 0, alpha := 1,
    stpmin := 0, stpmax := 1, stp := ⟨1, 0, 0⟩, stx := ⟨0, 1, -2⟩,
    sty := ⟨0, 1, -2⟩, f := 1, brackt := false, stage1 := true, infoc := 1 }

/-- Witness for C9. -/
theorem init_width_bookkeeping_witness :
    stOk.width = bOk.stpmax - bOk.stpmin ∧ stOk.width1 = 2 * stOk.width :=
  init_width_bookkeeping obj0 bOk stOk
    (by norm_num [init, dotQ, bOk, stOk])

end MoreThuente

namespace MoreThuente

/-- C10: the stage flag is monotone within a run - an internal step never
sets `stage1` back to `true` (the only assignment in `next_iter` clears
it) - and only a fresh `init` resets it to `true`. -/
theorem stage1_monotone :
    (∀ (sq : ℚ → ℚ) (s : MTState) (f dg : ℚ), s.stage1 = false →
        (nextIter sq s f dg).state.stage1 = false)
      ∧ ∀ (obj : List ℚ → ℚ) (b : MTBuilder) (st : MTState),
          init obj b = Except.ok st → st.stage1 = true := by
  constructor
  · intro sq s f dg h
    simp only [nextIter]
    split
    · exact h
    · show (if stageTransition s f dg then false else s.stage1) = false
      split
      · rfl
      · exact h
  · intro obj b st h
    exact (initOk_fields obj b st h).1

/-- A state with `stage1 = false`, used as the witness input for C10. -/
def sMono : MTState :=
  { finit := 1, dginit := -1, dgtest := -1/4, ftol := 1/4, gtol := 1/2,
    xtrapf := 4, width := 1, width1 := 2, xtol := 0, alpha := 1,
    stpmin := 0, stpmax := 1, stp := ⟨1, 1, -1⟩, stx := ⟨0, 1, -1⟩,
    sty := ⟨0, 1, -1⟩, f := 1, brackt := false, stage1 := false, infoc := 1 }

/-- A builder on which `init` succeeds (`dotQ [2] [-1] = -2 < 0`),
witness input for C10. -/
def bMono : MTBuilder :=
  { init_param_b := some [1], finit_b := some 1, init_grad_b := some [2],
    search_direction_b := some [-1], ftol := 1/4, gtol := 1/2, xtrapf := 4,
    xtol := 0, alpha := 1, stpmin := 0, stpmax := 1, infoc := 1 }

/-- The state `init obj0 bMono` produces. -/
def stMono : MTState :=
  { finit := 1, dginit := -2, dgtest := -1/2, ftol := 1/4, gtol := 1/2,
    xtrapf := 4, width := 1, width1 := 2, xtol := 0, alpha := 1,
    stpmin := 0, stpmax := 1, stp := ⟨1, 0, 0⟩, stx := ⟨0, 1, -2⟩,
    sty := ⟨0, 1, -2⟩, f := 1, brackt := false, stage1 := true, infoc := 1 }

/-- Witness for C10. -/
theorem stage1_monotone_witness :
    (nextIter sq0 sMono 1 1).state.stage1 = false
      ∧ stMono.stage1 = true :=
  ⟨stage1_monotone.1 sq0 sMono 1 1 rfl,
   stage1_monotone.2 obj0 bMono stMono (by norm_num [init, dotQ, bMono, stMono])⟩

end MoreThuente

namespace MoreThuente

/-- C1 counterexample state: `infoc = 0`, so the breakdown condition
(code 6) holds on entry. -/
def s1c : MTState :=
  { finit := 1, dginit := -1, dgtest := -1/4, ftol := 1/4, gtol := 1/2,
    xtrapf := 4, width := 2, width1 := 4, xtol := 0, alpha := 1,
    stpmin := 0, stpmax := 2, stp := ⟨1, 1/2, -1⟩, stx := ⟨0, 1, -1⟩,
    sty := ⟨0, 1, -1⟩, f := 1, brackt := false, stage1 := true, infoc := 0 }

/-- C1 is false as stated: at `s1c` with evaluation results `f = 1/2`,
`dg = -1/8`, both the breakdown condition (code 6) and the later-listed
Wolfe success condition (code 1) hold, yet the step reports code `1`,
not `6`: the assignments of lines 452-475 overwrite each other, so the
*last* matching condition wins. -/
theorem info_priority_cex :
    cond6 s1c ∧ cond1 s1c (1/2) (-1/8)
      ∧ (nextIter sq0 s1c (1/2) (-1/8)).info = 1 := by
  refine ⟨?_, ?_, ?_⟩ <;>
    norm_num [s1c, cond1, cond2, cond4, cond5, cond6, evalPos, snapCond,
      clampedPos, stBounds, ftest1v, f64Eps, nextIter, infoCascade, sq0,
      surrogateCond, stageTransition, cstep, cstepScale,
      max_def, min_def, abs]

/-- C1 amended: the termination code reported by a step is decided by the
*last* matching condition in the source's listed order; equivalently, the
priority order is success code 1 first, then 2, then 4, then 5, then
breakdown code 6. -/
theorem info_last_match_wins (sq : ℚ → ℚ) (s : MTState) (f dg : ℚ) :
    (nextIter sq s f dg).info
      = (if cond1 s f dg then 1 else if cond2 s then 2
         else if cond4 s f dg then 4 else if cond5 s f dg then 5
         else if cond6 s then 6 else 0) := by
  have h : (nextIter sq s f dg).info = infoCascade s f dg := by
    simp only [nextIter]
    split
    · rfl
    · rfl
  rw [h]
  unfold infoCascade
  by_cases h1 : cond1 s f dg <;> by_cases h2 : cond2 s <;>
    by_cases h4 : cond4 s f dg <;> by_cases h5 : cond5 s f dg <;>
    by_cases h6 : cond6 s <;>
    simp [h1, h2, h4, h5, h6]

end MoreThuente

namespace MoreThuente

/-- C2 scenario state: `stage1`, previous trial value `stp.fx = 2`,
bracket points at position `0` with raw value `1` and raw slope `-1`. -/
def s2c : MTState :=
  { finit := 1, dginit := -1, dgtest := -1/4, ftol := 1/4, gtol := 1/2,
    xtrapf := 4, width := 10, width1 := 10, xtol := 0, alpha := 1,
    stpmin := 0, stpmax := 10, stp := ⟨1, 2, -1⟩, stx := ⟨0, 1, -1⟩,
    sty := ⟨0, 1, -1⟩, f := 1, brackt := false, stage1 := true, infoc := 1 }

set_option maxHeartbeats 1600000 in
/-- C2 is violated by the code: at `s2c` with raw evaluation results
`f = 1` and `dg = -1/2` at trial position `1`, the surrogate branch fires
(first conjunct) and, after the step, the stored high point `sty` sits at
the trial position `1` but carries `(value, slope) = (3/4, -5/4)` instead
of the raw `(1, -1/2)`: lines 507-510 add the shift to the *old* stored
fields instead of un-shifting the values returned by `cstep`, so the
raw data is not restored. -/
theorem surrogate_undo_eval :
    surrogateCond true s2c.stp.fx 1 (ftest1v s2c)
      ∧ (nextIter sq0 s2c 1 (-1/2)).info = 0
      ∧ (nextIter sq0 s2c 1 (-1/2)).state.sty.x = 1
      ∧ (nextIter sq0 s2c 1 (-1/2)).state.sty.fx = 3/4
      ∧ (nextIter sq0 s2c 1 (-1/2)).state.sty.gx = -5/4
      ∧ ¬ (nextIter sq0 s2c 1 (-1/2)).state.sty.fx = 1
      ∧ ¬ (nextIter sq0 s2c 1 (-1/2)).state.sty.gx = -1/2 := by
  refine ⟨?_, ?_, ?_, ?_, ?_, ?_, ?_⟩ <;>
    norm_num [s2c, cond1, cond2, cond4, cond5, cond6, evalPos, snapCond,
      clampedPos, stBounds, ftest1v, f64Eps, nextIter, infoCascade, sq0,
      surrogateCond, stageTransition, cstep, cstepScale,
      max_def, min_def, abs]

end MoreThuente

namespace MoreThuente

/-- C3 scenario state: `stage1`, stored low value `stx.fx = 1`, stored
previous trial value `stp.fx = 1/2`. -/
def s3c : MTState :=
  { finit := 1, dginit := -1, dgtest := -1/4, ftol := 1/4, gtol := 1/2,
    xtrapf := 4, width := 10, width1 := 20, xtol := 0, alpha := 1,
    stpmin := 0, stpmax := 10, stp := ⟨1, 1/2, -1⟩, stx := ⟨0, 1, -1⟩,
    sty := ⟨0, 1, -1⟩, f := 1, brackt := false, stage1 := true, infoc := 1 }

set_option maxHeartbeats 1600000 in
/-- C3 is violated by the code: at `s3c` with fresh value `f = 4/5` and
slope `dg = -3/4` at trial position `1`, the claim's condition holds
(Stage1, Armijo fails since `4/5 > ftest1 = 3/4`, and
`f = 4/5 ≤ low.value = 1`), but the source's branch test compares `f`
against the *previous trial's* stored value `stp.fx = 1/2` and therefore
passes the raw values to `cstep`: the resulting low point stores the raw,
unshifted `(4/5, -3/4)`. -/
theorem surrogate_selection_eval :
    ¬ surrogateCond true s3c.stp.fx (4/5) (ftest1v s3c)
      ∧ surrogateCondClaim true s3c.stx.fx (4/5) (ftest1v s3c)
      ∧ (nextIter sq0 s3c (4/5) (-3/4)).info = 0
      ∧ (nextIter sq0 s3c (4/5) (-3/4)).state.stx.x = 1
      ∧ (nextIter sq0 s3c (4/5) (-3/4)).state.stx.fx = 4/5
      ∧ (nextIter sq0 s3c (4/5) (-3/4)).state.stx.gx = -3/4 := by
  refine ⟨?_, ?_, ?_, ?_, ?_, ?_⟩ <;>
    norm_num [s3c, cond1, cond2, cond4, cond5, cond6, evalPos, snapCond,
      clampedPos, stBounds, ftest1v, f64Eps, nextIter, infoCascade, sq0,
      surrogateCond, surrogateCondClaim, stageTransition, cstep, cstepScale,
      max_def, min_def, abs]

end MoreThuente

namespace MoreThuente

/-- C4 scenario state: configured interval `[0, 2]`, unbracketed, so the
local extrapolation bound is `stmax = 1 + 4*(1-0) = 5 > stpmax`. -/
def s4c : MTState :=
  { finit := 1, dginit := -1, dgtest := -1/4, ftol := 1/4, gtol := 1/2,
    xtrapf := 4, width := 2, width1 := 4, xtol := 0, alpha := 1,
    stpmin := 0, stpmax := 2, stp := ⟨1, 1/2, -1⟩, stx := ⟨0, 1, -1⟩,
    sty := ⟨0, 1, -1⟩, f := 1, brackt := false, stage1 := true, infoc := 1 }

set_option maxHeartbeats 1600000 in
/-- C4 is false as stated: at `s4c` with evaluation results `f = 9/10`,
`dg = -2`, the step is non-terminal and `cstep` (case 4, unbracketed)
extrapolates to the local bound `5`, so the returned candidate carries
trial position `5 > position_max = 2`.  The clamp into
`[position_min, position_max]` only happens at the *start* of a step. -/
theorem returned_trial_bounds_cex :
    (nextIter sq0 s4c (9/10) (-2)).info = 0
      ∧ s4c.stpmax = 2
      ∧ (nextIter sq0 s4c (9/10) (-2)).outX = 5
      ∧ ¬ (nextIter sq0 s4c (9/10) (-2)).outX ≤ s4c.stpmax := by
  refine ⟨?_, ?_, ?_, ?_⟩ <;>
    norm_num [s4c, cond1, cond2, cond4, cond5, cond6, evalPos, snapCond,
      clampedPos, stBounds, ftest1v, f64Eps, nextIter, infoCascade, sq0,
      surrogateCond, stageTransition, cstep, cstepScale,
      max_def, min_def, abs]

/-- C4 amended: the trial position at which the objective is *evaluated*
during a step (after the entry clamp, provided the degenerate snap-to-low
branch does not fire and the configured interval is non-empty) lies within
`[position_min, position_max]`; the position carried by the returned
non-terminal candidate is clamped only into the step's local uncertainty
bounds and is re-clamped at the start of the next step. -/
theorem eval_pos_in_bounds (s : MTState) (h1 : s.stpmin ≤ s.stpmax)
    (h2 : ¬ snapCond s) :
    s.stpmin ≤ evalPos s ∧ evalPos s ≤ s.stpmax := by
  unfold evalPos clampedPos
  rw [if_neg h2]
  exact ⟨le_min (le_max_right _ _) h1, min_le_right _ _⟩

/-- Witness for the amended C4 at the concrete state `s4c`. -/
theorem eval_pos_in_bounds_witness :
    s4c.stpmin ≤ evalPos s4c ∧ evalPos s4c ≤ s4c.stpmax :=
  eval_pos_in_bounds s4c (by norm_num [s4c])
    (by norm_num [snapCond, s4c, stBounds, clampedPos])

end MoreThuente
